import Mathlib

/-!
# Verification of the lidar-processing-wizard parameter pipeline

Shallow embedding of the dynamic-form snapshot (`collect_params` in
`src/gui/run_lasinfo_tab.py`), the command assembler and external process
invoker (`run_lasinfo` in `src/processing/run_lasinfo.py`), the background
task runner (`Worker.run` in `src/utils/worker.py`), the form builder
(`src/utils/form_builder.py`) and the presentation shell
(`BaseTab` in `src/gui/base_tab.py`), together with theorems settling the
spec's claims about them.
-/

namespace LidarWizard

/-- A value appearing in a Parameter Value Snapshot:
`bool | int | string | sequence of string` (spec section 3). -/
inductive Value where
  | bool (b : Bool)
  | int (n : Int)
  | str (s : String)
  | strList (l : List String)
deriving DecidableEq, Repr

/-- The state of one form control, as read by `collect_params`:
a `QCheckBox` (its checked state), a `QSpinBox` (its minimum, maximum and
current value), or a `QLineEdit` (its text). -/
inductive Widget where
  | checkbox (checked : Bool)
  | spinbox (minimum maximum value : Int)
  | lineedit (text : String)
deriving DecidableEq, Repr

/-- Python `str.split()` with no separator: split on runs of whitespace,
discarding empty pieces (so an all-whitespace string splits to `[]`).
The accumulator holds the characters of the current word, reversed. -/
def pySplitGo : List Char → List Char → List String
  | [], [] => []
  | [], acc => [String.mk acc.reverse]
  | c :: rest, acc =>
      if c.isWhitespace then
        match acc with
        | [] => pySplitGo rest []
        | _ :: _ => String.mk acc.reverse :: pySplitGo rest []
      else
        pySplitGo rest (c :: acc)

/-- Python `text.split()` as used at `run_lasinfo_tab.py:93`. -/
def pySplit (s : String) : List String :=
  pySplitGo s.toList []

/-- The allow-list of multi-value parameters hard-coded at
`run_lasinfo_tab.py:92`. -/
def multiValueParams : List String :=
  ["set_bb", "set_bounding_box", "set_creation_date", "set_number_of_points_by_return"]

/-- The per-widget branch of `LasInfoTab.collect_params`
(`run_lasinfo_tab.py:83-95`): a checkbox always contributes `isChecked()`;
a spinbox contributes its value when `value() != minimum() or minimum() != 1`;
a line edit with non-empty text contributes `text.split()` when the parameter
is on the multi-value allow-list and the raw text otherwise. -/
def collectOne (param : String) (w : Widget) : Option Value :=
  match w with
  | .checkbox checked => some (.bool checked)
  | .spinbox minimum _maximum value =>
      if value ≠ minimum ∨ minimum ≠ 1 then some (.int value) else none
  | .lineedit text =>
      if text ≠ "" then
        if param ∈ multiValueParams then some (.strList (pySplit text))
        else some (.str text)
      else none

/-- `LasInfoTab.collect_params` (`run_lasinfo_tab.py:75-96`): iterate the
registered widgets in insertion order, building the snapshot mapping. -/
def collect_params (widgets : List (String × Widget)) : List (String × Value) :=
  widgets.filterMap (fun pw => (collectOne pw.1 pw.2).map (fun v => (pw.1, v)))

/-- One iteration of the parameter loop in `run_lasinfo`
(`run_lasinfo.py:22-30`): `isinstance(value, bool) and value` appends the bare
flag; `isinstance(value, list)` appends the flag then `map(str, value)`
(the identity, since snapshot sequences hold strings); the `else` branch
appends the flag then `str(value)` — note Python's `str(False) = "False"`,
and the `else` branch does receive boolean `False`. -/
def encodeParam (param : String) : Value → List String
  | .bool true => ["-" ++ param]
  | .strList l => ("-" ++ param) :: l
  | .bool false => ["-" ++ param, "False"]
  | .int n => ["-" ++ param, toString n]
  | .str s => ["-" ++ param, s]

/-- The command-vector construction of `run_lasinfo` (`run_lasinfo.py:20-30`):
start from `['lasinfo', '-i', input_path]` and append each parameter's
encoding in the snapshot's iteration order. -/
def assembleCommand (input_path : String) (params : List (String × Value)) : List String :=
  params.foldl (fun command pv => command ++ encodeParam pv.1 pv.2)
    ["lasinfo", "-i", input_path]

/-- The per-entry encoding as worded by spec section 4.3: boolean true gives a
bare flag, a sequence gives the flag followed by its elements stringified, and
any other scalar gives the flag followed by the stringified scalar
(`str` is the identity on the strings inside a sequence, `str False = "False"`,
`str` of an int is its decimal rendering). -/
def specEncode (name : String) : Value → List String
  | .bool true => ["-" ++ name]
  | .strList l => ("-" ++ name) :: l
  | .bool false => ["-" ++ name, "False"]
  | .int n => ["-" ++ name, toString n]
  | .str s => ["-" ++ name, s]

/-- A signal emitted by `WorkerSignals` (`worker.py:16-18`): `progress` carries
an int, `result` the object returned by the operation, `error` the
`(exception, traceback string)` pair built at `worker.py:51`. -/
inductive Signal where
  | progress (n : Int)
  | result (v : String)
  | error (e : String × String)
deriving DecidableEq, Repr

/-- `Worker.run` (`worker.py:40-55`): the try block emits `progress(0)` and
evaluates the operation; the except branch emits `error`, the else branch
emits `result`, and the finally clause emits `progress(100)`. The submitted
operation is embedded as its outcome: `Except.ok` a returned value,
`Except.error` a raised exception (with its formatted traceback). -/
def workerRun (op : Except (String × String) String) : List Signal :=
  [Signal.progress 0] ++
    (match op with
      | .error e => [Signal.error e]
      | .ok v => [Signal.result v]) ++
  [Signal.progress 100]

/-- A terminal signal in the sense of the spec's glossary: `result` or
`error`, but not `progress`. -/
def isTerminal : Signal → Bool
  | .progress _ => false
  | .result _ => true
  | .error _ => true

/-- The terminal signal spec section 4.4 prescribes for an operation outcome:
`result(value)` on normal return, `error(descriptor)` on a raised fault. -/
def specTerminal : Except (String × String) String → Signal
  | .ok v => Signal.result v
  | .error e => Signal.error e

/-- The completed child process as `subprocess.run` reports it
(`run_lasinfo.py:35`): return code plus captured stdout and stderr text. -/
structure ProcessResult where
  exit_code : Int
  stdout : String
  stderr : String
deriving DecidableEq, Repr

/-- The payload of `subprocess.CalledProcessError`, which `run_lasinfo`
lets propagate (`run_lasinfo.py:38-40`): the non-zero return code and the
captured streams, stderr carrying the tool's diagnostic text. -/
structure ExternalToolError where
  returncode : Int
  stdout : String
  stderr : String
deriving DecidableEq, Repr

/-- The invocation tail of `run_lasinfo` (`run_lasinfo.py:34-40`), with the
child process embedded as its `ProcessResult`: `subprocess.run(..., check=True)`
raises `CalledProcessError` exactly when the exit status is non-zero, and the
success path returns `result.stderr` (deliberately not stdout). -/
def invoke (child : ProcessResult) : Except ExternalToolError String :=
  if child.exit_code ≠ 0 then
    Except.error ⟨child.exit_code, child.stdout, child.stderr⟩
  else
    Except.ok child.stderr

/-- One schema entry as it reaches `add_parameters`
(`run_lasinfo_tab.py:67-73`): a `type` of `"checkbox"`, `"spinbox"` or
`"lineedit"`, a label, an optional default, and min/max for spinboxes. -/
inductive ParamConfig where
  | checkbox (label : String) (default : Option Bool)
  | spinbox (label : String) (minimum maximum : Int) (default : Option Int)
  | lineedit (label : String) (default : Option String)
deriving DecidableEq, Repr

/-- Qt's value bounding for `QSpinBox`: the stored value is
`max(minimum, min(x, maximum))`. A fresh spinbox holds value 0 before
`setRange`/`setValue` run. -/
def qtClamp (minimum maximum x : Int) : Int :=
  max minimum (min x maximum)

/-- The widget produced for one schema entry by `add_parameters`
(`run_lasinfo_tab.py:67-73` via `form_builder.py:30-84`):
`add_checkbox` checks the box to `config.get('default', False)`;
`add_spinbox` sets the range and then the default when present, so the value
is the clamped default, or the clamped initial 0 when absent;
`add_lineedit` seeds the text with `config.get('default', '')`. -/
def buildWidget : ParamConfig → Widget
  | .checkbox _ d => .checkbox (d.getD false)
  | .spinbox _ mn mx d => .spinbox mn mx (qtClamp mn mx (d.getD 0))
  | .lineedit _ d => .lineedit (d.getD "")

/-- Building the form registers one widget per schema entry, in schema
order (`run_lasinfo_tab.py:56-73`). -/
def buildForm (group : List (String × ParamConfig)) : List (String × Widget) :=
  group.map (fun pc => (pc.1, buildWidget pc.2))

/-- Whether a schema entry's freshly built control is at its "unset"
baseline, i.e. contributes nothing to the snapshot: a checkbox never is (its
checked state is always read back); a spinbox is exactly when its built value
equals its minimum and the minimum is 1; a line edit is exactly when its
default text is empty. -/
def unsetAtDefault : ParamConfig → Bool
  | .checkbox _ _ => false
  | .spinbox _ mn mx d => decide (qtClamp mn mx (d.getD 0) = mn ∧ mn = 1)
  | .lineedit _ d => decide (d.getD "" = "")

/-- The state of one `BaseTab` as far as `on_start` and the signal handlers
touch it: the path field's text, the registered form widgets, the log pane
(as the list of appended blocks) and the progress bar value. -/
structure TabState where
  dir_input : String
  widgets : List (String × Widget)
  output_text : List String
  progress : Int
deriving DecidableEq, Repr

/-- What `on_start` does besides mutating the tab: either it shows the
validation warning and submits nothing, or it submits the operation built
from the input path and the snapshot. -/
inductive StartOutcome where
  | validationError
  | submitted (input_path : String) (params : List (String × Value))
deriving DecidableEq, Repr

/-- `BaseTab.execute_process` (`base_tab.py:140-155`): reset the progress bar
to 0, clear the output pane, and hand the operation to the worker pool. -/
def execute_process (s : TabState) (input_path : String)
    (params : List (String × Value)) : TabState × StartOutcome :=
  ({ s with progress := 0, output_text := [] },
   StartOutcome.submitted input_path params)

/-- `BaseTab.on_start` (`base_tab.py:119-129`): an empty path field shows a
warning and returns; otherwise the snapshot is collected and
`execute_process` runs. -/
def on_start (s : TabState) : TabState × StartOutcome :=
  if s.dir_input = "" then (s, StartOutcome.validationError)
  else execute_process s s.dir_input (collect_params s.widgets)

/-- `BaseTab.on_process_complete` (`base_tab.py:157-166`): append the result
to the output pane and set the progress bar to 100. -/
def on_process_complete (s : TabState) (result : String) : TabState :=
  { s with output_text := s.output_text ++ [result], progress := 100 }

/-- `BaseTab.on_process_error` (`base_tab.py:168-177`): append
`f"Error: {error}"` to the output pane and reset the progress bar to 0.
The stringified error tuple is embedded as a string. -/
def on_process_error (s : TabState) (error : String) : TabState :=
  { s with output_text := s.output_text ++ ["Error: " ++ error], progress := 0 }

/-- `BaseTab.append_log_message` (`base_tab.py:36-43`): append the log
message to the output pane. -/
def append_log_message (s : TabState) (message : String) : TabState :=
  { s with output_text := s.output_text ++ [message] }

/-! ## Shared helper lemmas -/

/-- Unfolding the assembler's `foldl` into a fixed three-element head followed
by the per-entry encodings in iteration order. -/
theorem assembleCommand_eq_flatMap (input : String) (params : List (String × Value)) :
    assembleCommand input params
      = ["lasinfo", "-i", input] ++ params.flatMap (fun nv => encodeParam nv.1 nv.2) := by
  suffices h : ∀ (ps : List (String × Value)) (init : List String),
      ps.foldl (fun command pv => command ++ encodeParam pv.1 pv.2) init
        = init ++ ps.flatMap (fun nv => encodeParam nv.1 nv.2) by
    exact h params _
  intro ps
  induction ps with
  | nil => intro init; simp
  | cons hd tl ih => intro init; simp [List.foldl_cons, ih, List.flatMap_cons]

/-- The code's per-entry encoding coincides with the one worded in the spec. -/
theorem encodeParam_eq_specEncode : @encodeParam = @specEncode := by
  funext p v
  cases v with
  | bool b => cases b <;> rfl
  | int n => rfl
  | str s => rfl
  | strList l => rfl

/-- An all-whitespace character list splits to no words. -/
theorem pySplitGo_all_whitespace (l : List Char)
    (h : ∀ c ∈ l, c.isWhitespace = true) : pySplitGo l [] = [] := by
  induction l with
  | nil => rfl
  | cons c rest ih =>
      have hc : c.isWhitespace = true := h c (List.mem_cons_self c rest)
      have hrest : ∀ c ∈ rest, c.isWhitespace = true :=
        fun x hx => h x (List.mem_cons_of_mem c hx)
      simp [pySplitGo, hc, ih hrest]

/-- A freshly built control contributes nothing to the snapshot exactly when
its schema entry is `unsetAtDefault`. -/
theorem collectOne_buildWidget_eq_none (p : String) (c : ParamConfig) :
    collectOne p (buildWidget c) = none ↔ unsetAtDefault c = true := by
  cases c with
  | checkbox label d => simp [collectOne, buildWidget, unsetAtDefault]
  | spinbox label mn mx d =>
      by_cases h : qtClamp mn mx (d.getD 0) = mn ∧ mn = 1
      · simp [collectOne, buildWidget, unsetAtDefault, h.1, h.2]
      · rw [not_and_or] at h
        simp only [collectOne, buildWidget, unsetAtDefault]
        rcases h with h | h <;> simp [h]
  | lineedit label d =>
      by_cases h : d.getD "" = ""
      · simp [collectOne, buildWidget, unsetAtDefault, h]
      · by_cases hp : p ∈ multiValueParams <;>
          simp [collectOne, buildWidget, unsetAtDefault, h, hp]

/-! ## Claim theorems -/

/-- Claim C1, counterexample: the claimed quirk is inverted in the code.
With minimum 1 and value 1 the claim demands inclusion, yet `collect_params`
omits the parameter; with minimum 0 and value 0 the claim demands omission,
yet `collect_params` includes the value. -/
theorem spinbox_min_one_counterexample :
    collect_params [("progress_step", Widget.spinbox 1 100 1)] = [] ∧
    collect_params [("threads", Widget.spinbox 0 64 0)] = [("threads", Value.int 0)] := by
  decide

/-- Claim C1, amended: the snapshot omits an integer parameter exactly when
the control's value equals the minimum AND the minimum is 1; when the minimum
differs from 1 the value is always included, even when it equals the
minimum. -/
theorem snapshot_spinbox_inclusion (p : String) (mn mx v : Int)
    (ws : List (String × Widget)) :
    collect_params ((p, Widget.spinbox mn mx v) :: ws)
      = (if v = mn ∧ mn = 1 then [] else [(p, Value.int v)]) ++ collect_params ws := by
  by_cases h : v = mn ∧ mn = 1
  · simp [collect_params, collectOne, h.1, h.2]
  · have hcond : v ≠ mn ∨ mn ≠ 1 := not_and_or.mp h
    simp [collect_params, collectOne, if_pos hcond, h]

/-- Claim C2, counterexample: an unchecked flag control is still included in
the snapshot, mapped to `false`. -/
theorem flag_false_included_counterexample :
    ("verbose", Value.bool false) ∈ collect_params [("verbose", Widget.checkbox false)] := by
  decide

/-- Claim C2, amended: the snapshot includes every flag parameter
unconditionally, mapped to the control's checked state — an unchecked flag
contributes `false` rather than being omitted. -/
theorem snapshot_flag_reads_checked (p : String) (b : Bool)
    (ws : List (String × Widget)) :
    collect_params ((p, Widget.checkbox b) :: ws)
      = (p, Value.bool b) :: collect_params ws := rfl

/-- Claim C3: the assembled vector is `["lasinfo", "-i", inputPath]` followed,
in the snapshot's iteration order, by each entry's spec-prescribed encoding:
a bare flag for boolean true, the flag plus stringified elements for a
sequence, and the flag plus the stringified scalar otherwise. -/
theorem assemble_matches_spec (input : String) (params : List (String × Value)) :
    assembleCommand input params
      = ["lasinfo", "-i", input] ++ params.flatMap (fun nv => specEncode nv.1 nv.2) := by
  rw [assembleCommand_eq_flatMap, encodeParam_eq_specEncode]

/-- Claim C4: for every submitted operation the worker emits `progress(0)`,
then the one terminal signal prescribed for the operation's outcome
(`result` on normal return, `error` on a raised fault), then `progress(100)`:
exactly one terminal signal, `progress(0)` first, `progress(100)` last. -/
theorem worker_signal_sequence (op : Except (String × String) String) :
    workerRun op = [Signal.progress 0, specTerminal op, Signal.progress 100] ∧
    ((workerRun op).filter isTerminal).length = 1 ∧
    (workerRun op).head? = some (Signal.progress 0) ∧
    (workerRun op).getLast? = some (Signal.progress 100) := by
  cases op <;> simp [workerRun, specTerminal, isTerminal]

/-- Claim C5: a non-zero exit status makes `invoke` fail with the error
carrying the captured stderr text; a zero exit status makes it return the
captured stderr (the diagnostic stream), not stdout. -/
theorem invoke_exit_code_contract (child : ProcessResult) :
    (child.exit_code ≠ 0 →
      invoke child = Except.error ⟨child.exit_code, child.stdout, child.stderr⟩) ∧
    (child.exit_code = 0 → invoke child = Except.ok child.stderr) := by
  constructor
  · intro h; simp [invoke, h]
  · intro h; simp [invoke, h]

/-- Witness for C5 at concrete stub child processes: exit code 1 with stderr
`"bad input"` fails carrying `"bad input"`; exit code 0 with stdout
`"data"` and stderr `"ok report"` returns `"ok report"`. -/
theorem invoke_exit_code_contract_witness :
    invoke ⟨1, "data", "bad input"⟩ = Except.error ⟨1, "data", "bad input"⟩ ∧
    invoke ⟨0, "data", "ok report"⟩ = Except.ok "ok report" :=
  ⟨(invoke_exit_code_contract ⟨1, "data", "bad input"⟩).1 (by decide),
   (invoke_exit_code_contract ⟨0, "data", "ok report"⟩).2 rfl⟩

/-- Claim C6, counterexample: a boolean-false entry does contribute to the
argument vector — `{verbose: False}` yields `-verbose False`, not the bare
base vector. -/
theorem assemble_emits_false_counterexample :
    assembleCommand "/a/b.las" [("verbose", Value.bool false)]
        = ["lasinfo", "-i", "/a/b.las", "-verbose", "False"] ∧
    assembleCommand "/a/b.las" [("verbose", Value.bool false)]
        ≠ ["lasinfo", "-i", "/a/b.las"] := by
  decide

/-- Claim C6, amended: a boolean-false entry falls into the assembler's
generic scalar branch and contributes exactly `"-" ++ name` followed by
`"False"` (Python's `str(False)`) to the argument vector. -/
theorem assemble_bool_false_contribution (input p : String)
    (ps : List (String × Value)) :
    assembleCommand input (ps ++ [(p, Value.bool false)])
      = assembleCommand input ps ++ ["-" ++ p, "False"] := by
  rw [assembleCommand_eq_flatMap, assembleCommand_eq_flatMap, List.flatMap_append]
  simp [encodeParam]

/-- Claim C7, counterexample: a schema group holding one flag parameter with
no default builds an unchecked checkbox, and the snapshot of the fresh form
already maps it to `false` — the round trip is not empty. -/
theorem default_snapshot_nonempty_counterexample :
    collect_params (buildForm [("verbose", ParamConfig.checkbox "Verbose" none)])
        = [("verbose", Value.bool false)] ∧
    collect_params (buildForm [("verbose", ParamConfig.checkbox "Verbose" none)])
        ≠ [] := by
  decide

/-- Claim C7, amended: building a form from a schema group and snapshotting
at the defaults yields an empty mapping iff every entry is at its "unset"
baseline — which no flag parameter ever is (its checked state is always read
back), an integer parameter is exactly when its minimum is 1 and its built
default value is 1, and a text parameter is exactly when its default text is
empty. -/
theorem default_snapshot_empty_iff (group : List (String × ParamConfig)) :
    collect_params (buildForm group) = [] ↔
      ∀ pc ∈ group, unsetAtDefault pc.2 = true := by
  simp only [collect_params, List.filterMap_eq_nil_iff]
  constructor
  · intro h pc hpc
    have hmem : (pc.1, buildWidget pc.2) ∈ buildForm group :=
      List.mem_map.mpr ⟨pc, hpc, rfl⟩
    have hnone := h _ hmem
    rw [Option.map_eq_none'] at hnone
    exact (collectOne_buildWidget_eq_none pc.1 pc.2).mp hnone
  · intro h pw hpw
    obtain ⟨pc, hpc, rfl⟩ := List.mem_map.mp hpw
    rw [Option.map_eq_none']
    exact (collectOne_buildWidget_eq_none pc.1 pc.2).mpr (h pc hpc)

/-- Claim C8: when the path field is empty, the start action reports the
validation error and leaves the tab state — log pane, progress bar, widgets —
entirely unchanged: no snapshot is submitted and no task runs. -/
theorem on_start_empty_path_validation (s : TabState) (h : s.dir_input = "") :
    on_start s = (s, StartOutcome.validationError) := by
  simp [on_start, h]

/-- Witness for C8: a tab with an empty path, a live log and mid progress is
returned untouched with the validation outcome. -/
theorem on_start_empty_path_validation_witness :
    on_start ⟨"", [("verbose", Widget.checkbox true)], ["old log"], 42⟩
      = (⟨"", [("verbose", Widget.checkbox true)], ["old log"], 42⟩,
         StartOutcome.validationError) :=
  on_start_empty_path_validation _ rfl

/-- Claim C9, counterexample: starting a task does not preserve the existing
log text — `execute_process` clears the pane, so the prior content is not a
prefix of (indeed is absent from) the new content. -/
theorem start_clears_log_counterexample :
    ¬ ∃ t, (on_start ⟨"/data", [], ["earlier output"], 100⟩).1.output_text
        = ["earlier output"] ++ t := by
  rintro ⟨t, ht⟩
  have hempty : (on_start ⟨"/data", [], ["earlier output"], 100⟩).1.output_text
      = [] := rfl
  rw [hempty] at ht
  exact List.cons_ne_nil _ _ ht.symm

/-- Claim C9, amended: the result, error and log-message handlers only append
to the log pane; the start action, however, clears the pane (when it submits
at all) instead of preserving it — the pane is append-only only between
starts. -/
theorem log_handlers_append_only (s : TabState) (r e m : String) :
    (on_process_complete s r).output_text = s.output_text ++ [r] ∧
    (on_process_error s e).output_text = s.output_text ++ ["Error: " ++ e] ∧
    (append_log_message s m).output_text = s.output_text ++ [m] ∧
    (on_start s).1.output_text
      = (if s.dir_input = "" then s.output_text else []) := by
  refine ⟨rfl, rfl, rfl, ?_⟩
  by_cases h : s.dir_input = "" <;> simp [on_start, execute_process, h]

/-- Claim C10: an allow-listed text parameter whose text is non-empty but all
whitespace is snapshotted as an empty sequence, and assembling that snapshot
appends the bare flag with no value elements. -/
theorem whitespace_multivalue_bare_flag (p s input : String)
    (hp : p ∈ multiValueParams) (hs : s ≠ "")
    (hw : ∀ c ∈ s.toList, c.isWhitespace = true) :
    collect_params [(p, Widget.lineedit s)] = [(p, Value.strList [])] ∧
    assembleCommand input (collect_params [(p, Widget.lineedit s)])
      = ["lasinfo", "-i", input, "-" ++ p] := by
  have hsplit : pySplit s = [] := pySplitGo_all_whitespace s.toList hw
  have hsnap : collect_params [(p, Widget.lineedit s)] = [(p, Value.strList [])] := by
    simp [collect_params, collectOne, hs, hp, hsplit]
  refine ⟨hsnap, ?_⟩
  rw [hsnap, assembleCommand_eq_flatMap]
  simp [encodeParam]

/-- Witness for C10: the `set_bb` parameter with a single-space text
snapshots to an empty sequence and assembles to the bare `-set_bb` flag. -/
theorem whitespace_multivalue_bare_flag_witness :
    collect_params [("set_bb", Widget.lineedit " ")]
        = [("set_bb", Value.strList [])] ∧
    assembleCommand "/a/b.las" (collect_params [("set_bb", Widget.lineedit " ")])
        = ["lasinfo", "-i", "/a/b.las", "-set_bb"] :=
  whitespace_multivalue_bare_flag "set_bb" " " "/a/b.las"
    (by decide) (by decide) (by decide)

end LidarWizard
